import Mathlib

/-!
Shallow embedding of src/app/src/main/cpp/mlt_wrapper.cpp.

The translation unit defines eleven JNI entry points of the class
uc.ucworks.videosnap.MltHelper.  Nine of them are void functions with an
empty body; the remaining two return a string built with NewStringUTF from
a literal.  No body reads or writes a file, inspects its arguments, or
calls into the (commented-out) MLT library.

We model the observable outside world as the set of files the process
could touch.  A void entry point is embedded as a function from the world
(and its decoded arguments) back to the world; since its body is empty it
returns the world unchanged.  A jstring-returning entry point additionally
returns the produced string.  jdouble arguments are embedded as Rat (the
code never computes with them), jint as Int, jobjectArray of strings as
List String, the keyframe array as a list of (timestamp, value) pairs,
and the preset jobject as a record of output parameters.
-/

/-- Metadata of a media file, as the spec's Media Handle caches it
(duration in seconds, pixel dimensions). -/
structure MediaFile where
  duration : Rat
  width : Nat
  height : Nat
deriving DecidableEq, Repr

/-- The observable world: the files reachable from the process, as an
association list from path to content metadata. -/
structure World where
  files : List (String × MediaFile)
deriving DecidableEq, Repr

/-- Whether a file exists at a path in a world. -/
def World.hasFile (w : World) (p : String) : Bool :=
  (w.files.lookup p).isSome

/-- An output preset (resolution, bitrate), the payload of the opaque
jobject argument of exportVideoNative. -/
structure Preset where
  width : Nat
  height : Nat
  bitrateKbps : Nat
deriving DecidableEq, Repr

/-- Java_uc_ucworks_videosnap_MltHelper_getVideoInfoNative:
body is `return env->NewStringUTF("Duration: 0");` and nothing else. -/
def getVideoInfoNative (w : World) (filePath : String) : World × String :=
  (w, "Duration: 0")

/-- Java_uc_ucworks_videosnap_MltHelper_trimVideoNative: empty body. -/
def trimVideoNative (w : World) (inPath outPath : String)
    (startTime endTime : Rat) : World :=
  w

/-- Java_uc_ucworks_videosnap_MltHelper_splitVideoNative: empty body. -/
def splitVideoNative (w : World) (inPath outPath1 outPath2 : String)
    (splitPoint : Rat) : World :=
  w

/-- Java_uc_ucworks_videosnap_MltHelper_applyEffectNative: empty body. -/
def applyEffectNative (w : World) (inPath outPath effect : String) : World :=
  w

/-- Java_uc_ucworks_videosnap_MltHelper_exportVideoNative: empty body. -/
def exportVideoNative (w : World) (inPath outPath : String)
    (preset : Preset) : World :=
  w

/-- Java_uc_ucworks_videosnap_MltHelper_mixAudioNative: empty body. -/
def mixAudioNative (w : World) (inPaths : List String)
    (outPath : String) : World :=
  w

/-- Java_uc_ucworks_videosnap_MltHelper_applyKeyframeEffectNative:
empty body. -/
def applyKeyframeEffectNative (w : World) (inPath outPath property : String)
    (keyframes : List (Rat × Rat)) : World :=
  w

/-- Java_uc_ucworks_videosnap_MltHelper_applyTextOverlayNative:
empty body. -/
def applyTextOverlayNative (w : World) (inPath outPath text : String)
    (x y fontSize color : Int) : World :=
  w

/-- Java_uc_ucworks_videosnap_MltHelper_applyPiPNative: empty body. -/
def applyPiPNative (w : World)
    (backgroundPath foregroundPath outPath : String)
    (x y width height : Int) : World :=
  w

/-- Java_uc_ucworks_videosnap_MltHelper_applySpeedRampNative:
empty body. -/
def applySpeedRampNative (w : World) (inPath outPath speedMap : String) :
    World :=
  w

/-- Java_uc_ucworks_videosnap_MltHelper_trackMotionNative:
body is `return env->NewStringUTF("");` and nothing else. -/
def trackMotionNative (w : World) (inPath outPath : String)
    (x y width height : Int) : World × String :=
  (w, "")

/-- The error taxonomy of the spec (section 7).  The eleven entry points
above never produce a value of this type: nine return nothing at all and
two return a fixed string.  The type is declared so the divergence between
the design and the code can be stated. -/
inductive ErrorKind where
  | NotFound | UnsupportedFormat | UnsupportedFilter | InvalidParameter
  | InvalidRange | EmptyInput | EncodeFailure | DecodeFailure
  | DiskWriteFailure | Cancelled | TrackingLost
deriving DecidableEq, Repr

/-- A concrete input file of duration 10 s, for evaluating the entry
points at concrete inputs. -/
def sampleIn : MediaFile :=
  { duration := 10, width := 1920, height := 1080 }

/-- A concrete world holding only the input file in.mp4. -/
def w0 : World :=
  { files := [("in.mp4", sampleIn)] }

/-- A concrete input file of duration 5 s. -/
def probedFile : MediaFile :=
  { duration := 5, width := 1280, height := 720 }

/-- A concrete world holding only a.mp4, of duration 5 s. -/
def w1 : World :=
  { files := [("a.mp4", probedFile)] }

/-- Modelled from the spec (section 4.2) and the commented-out sketch in
mlt_wrapper.cpp: the sepia stage applies the fixed 3x3 matrix
0.393 0.769 0.189 / 0.349 0.686 0.168 / 0.272 0.534 0.131 to an RGB
pixel.  No executable filter arithmetic exists in src; this definition
records the intended semantics the stubs were to delegate to the MLT
library. -/
def sepiaSpec (p : Rat × Rat × Rat) : Rat × Rat × Rat :=
  (393/1000 * p.1 + 769/1000 * p.2.1 + 189/1000 * p.2.2,
   349/1000 * p.1 + 686/1000 * p.2.1 + 168/1000 * p.2.2,
   272/1000 * p.1 + 534/1000 * p.2.1 + 131/1000 * p.2.2)

/-- Modelled from the spec (section 4.2): the luma of an RGB pixel with
the Rec. 601 weights, which sum to one. -/
def grayLuma (p : Rat × Rat × Rat) : Rat :=
  299/1000 * p.1 + 587/1000 * p.2.1 + 114/1000 * p.2.2

/-- Modelled from the spec (section 4.2): the grayscale stage desaturates
a pixel, preserving luma.  No executable filter arithmetic exists in src. -/
def grayscaleSpec (p : Rat × Rat × Rat) : Rat × Rat × Rat :=
  (grayLuma p, grayLuma p, grayLuma p)

/-- The intended grayscale stage is idempotent: its luma weights sum to
one, so desaturating an already desaturated pixel changes nothing. -/
theorem grayscaleSpec_idempotent (p : Rat × Rat × Rat) :
    grayscaleSpec (grayscaleSpec p) = grayscaleSpec p := by
  unfold grayscaleSpec grayLuma
  norm_num
  ring

/-- The intended sepia stage is not idempotent: on the pure blue pixel a
second application changes the value. -/
theorem sepiaSpec_not_idempotent :
    sepiaSpec (sepiaSpec (0, 0, 255)) ≠ sepiaSpec (0, 0, 255) := by
  unfold sepiaSpec
  norm_num [Prod.ext_iff]

/-- Claim C1: every exposed native entry point in the source file is an
empty stub.  For every world and every argument list, each of the nine
void entry points returns the world unchanged (no decoding, filtering,
composition or encoding happens), and the two string-returning entry
points leave the world unchanged and return only the placeholder
constants "Duration: 0" and "". -/
theorem C1_every_entry_point_is_an_empty_stub
    (w : World) (p q r s : String) (a b sp : Rat)
    (xs : List String) (kfs : List (Rat × Rat)) (pr : Preset)
    (x y wd ht fs c : Int) :
    getVideoInfoNative w p = (w, "Duration: 0")
    ∧ trimVideoNative w p q a b = w
    ∧ splitVideoNative w p q r sp = w
    ∧ applyEffectNative w p q r = w
    ∧ exportVideoNative w p q pr = w
    ∧ mixAudioNative w xs q = w
    ∧ applyKeyframeEffectNative w p q r kfs = w
    ∧ applyTextOverlayNative w p q r x y fs c = w
    ∧ applyPiPNative w p q r x y wd ht = w
    ∧ applySpeedRampNative w p q r = w
    ∧ trackMotionNative w p q x y wd ht = (w, "") :=
  ⟨rfl, rfl, rfl, rfl, rfl, rfl, rfl, rfl, rfl, rfl, rfl⟩

/-- Claim C2 (code evaluated at the failing input): the claim says every
boundary operation returns a success result or a specific ErrorKind and
never completes as a silent no-op.  The code's trim entry point, called on
a world containing in.mp4 with a well-formed request, returns the world
unchanged, creates nothing at the output path, and its return type carries
no result and no error: it completes as exactly the silent no-op the claim
rules out. -/
theorem C2_trim_completes_as_silent_noop :
    trimVideoNative w0 "in.mp4" "out.mp4" 0 5 = w0
    ∧ (trimVideoNative w0 "in.mp4" "out.mp4" 0 5).hasFile "out.mp4" = false := by
  exact ⟨rfl, by decide⟩

/-- Claim C3 (code evaluated at the failing input): the claim says the
string returned by getVideoInfo reflects the probed file's actual
metadata.  In the world w1 the file a.mp4 has duration 5 s, yet the code
returns the fixed string "Duration: 0"; the same string is returned in an
empty world for a path naming no file at all, so the result is independent
of the file's metadata. -/
theorem C3_getVideoInfo_ignores_the_file :
    w1.files.lookup "a.mp4" = some probedFile
    ∧ probedFile.duration = 5
    ∧ (getVideoInfoNative w1 "a.mp4").2 = "Duration: 0"
    ∧ (getVideoInfoNative w1 "a.mp4").2
        = (getVideoInfoNative { files := [] } "missing.mp4").2 := by
  refine ⟨by decide, by decide, rfl, rfl⟩

/-- Claim C4 (code evaluated at the failing input): the claim says trim
fails with InvalidRange when start is at least end.  Called with start 5
and end 3 (so start exceeds end) on a world containing in.mp4, the code
returns the world unchanged and signals nothing: its return type has no
error channel, so no InvalidRange failure is produced. -/
theorem C4_invalid_range_not_rejected :
    (3 : Rat) < 5
    ∧ trimVideoNative w0 "in.mp4" "out.mp4" 5 3 = w0 := by
  exact ⟨by norm_num, rfl⟩

/-- Claim C5 (code evaluated at the failing input): the claim says trim
with a valid range succeeds, producing an output of duration end minus
start.  With the valid range 0 to 5 inside the 10 s duration of in.mp4,
the code returns the world unchanged and no output file of any duration
exists at the output path. -/
theorem C5_valid_trim_produces_no_output :
    (0 : Rat) ≤ 0 ∧ (0 : Rat) < 5 ∧ (5 : Rat) ≤ sampleIn.duration
    ∧ trimVideoNative w0 "in.mp4" "out.mp4" 0 5 = w0
    ∧ (trimVideoNative w0 "in.mp4" "out.mp4" 0 5).hasFile "out.mp4" = false := by
  refine ⟨le_refl 0, by norm_num, by decide, rfl, by decide⟩

/-- Claim C6 (code evaluated at the failing input): the claim says split
at a point strictly inside the duration produces two segments whose
concatenation restores the original duration.  With split point 4 strictly
inside the 10 s duration of in.mp4, the code returns the world unchanged
and neither output segment exists, so there is nothing to concatenate. -/
theorem C6_split_produces_no_segments :
    (0 : Rat) < 4 ∧ (4 : Rat) < sampleIn.duration
    ∧ splitVideoNative w0 "in.mp4" "a.mp4" "b.mp4" 4 = w0
    ∧ (splitVideoNative w0 "in.mp4" "a.mp4" "b.mp4" 4).hasFile "a.mp4" = false
    ∧ (splitVideoNative w0 "in.mp4" "a.mp4" "b.mp4" 4).hasFile "b.mp4" = false := by
  refine ⟨by norm_num, by decide, rfl, by decide, by decide⟩

/-- Claim C7 (code evaluated at the failing input): the claim says
applying sepia twice differs from applying it once on some frame, while
grayscale is idempotent.  The code's effect entry point is a no-op, so a
double sepia application yields exactly the same world as a single one
(and as no application at all): no frame ever differs, refuting the sepia
half of the claim on the code as written. -/
theorem C7_sepia_double_equals_single_on_code :
    applyEffectNative w0 "in.mp4" "s1.mp4" "sepia" = w0
    ∧ applyEffectNative (applyEffectNative w0 "in.mp4" "s1.mp4" "sepia")
        "s1.mp4" "s2.mp4" "sepia"
      = applyEffectNative w0 "in.mp4" "s1.mp4" "sepia" :=
  ⟨rfl, rfl⟩

/-- Claim C8 (code evaluated at the failing input): the claim says an
unknown effect name fails immediately with UnsupportedFilter and creates
no output file.  Called with the unknown name notAFilter, the code indeed
creates no output file, but it also signals nothing: its return type has
no error channel, so no UnsupportedFilter failure is produced. -/
theorem C8_unknown_effect_not_rejected :
    applyEffectNative w0 "in.mp4" "out.mp4" "notAFilter" = w0
    ∧ (applyEffectNative w0 "in.mp4" "out.mp4" "notAFilter").hasFile "out.mp4"
        = false := by
  exact ⟨rfl, by decide⟩

/-- Claim C9: getVideoInfoNative is a constant function of its file-path
argument.  For any two worlds and any two paths the returned strings are
identical, always "Duration: 0", and the world is untouched: the output
reveals nothing about the input path or the file it names. -/
theorem C9_getVideoInfo_is_constant (w w' : World) (p p' : String) :
    (getVideoInfoNative w p).2 = (getVideoInfoNative w' p').2
    ∧ (getVideoInfoNative w p).2 = "Duration: 0"
    ∧ (getVideoInfoNative w p).1 = w :=
  ⟨rfl, rfl, rfl⟩

/-- Claim C10: each of the nine void-returning native operations leaves
all observable state unchanged for every input: the returned world is the
input world, so no file is created or modified at any output path and no
other effect occurs. -/
theorem C10_void_ops_leave_world_unchanged
    (w : World) (p q r s : String) (a b sp : Rat)
    (xs : List String) (kfs : List (Rat × Rat)) (pr : Preset)
    (x y wd ht fs c : Int) :
    trimVideoNative w p q a b = w
    ∧ splitVideoNative w p q r sp = w
    ∧ applyEffectNative w p q r = w
    ∧ exportVideoNative w p q pr = w
    ∧ mixAudioNative w xs q = w
    ∧ applyKeyframeEffectNative w p q r kfs = w
    ∧ applyTextOverlayNative w p q r x y fs c = w
    ∧ applyPiPNative w p q r x y wd ht = w
    ∧ applySpeedRampNative w p q r = w :=
  ⟨rfl, rfl, rfl, rfl, rfl, rfl, rfl, rfl, rfl⟩
